import Mathlib

/-
  Verification of the material-matrix / thickness-integration module of the
  gismo example `examples/gsMaterialMatrix_test.cpp` (with the abstract
  function interface from `src/gsCore/gsFunction.h`).

  Shallow embedding over exact rationals:
  - a gsMatrix is a (rows, cols, entry) triple; entries outside the bounds
    are irrelevant junk (the C++ counterpart would be out-of-range access);
  - a gsFunction is a (domainDim, targetDim, pointwise eval) triple; its
    matrix-level eval_into is the column-wise map documented in
    gsFunction.h ("each column of result represents the result of the
    function at the respective evaluation point");
  - GISMO_ASSERT failures are modelled as Except.error (the spec classifies
    them as fatal precondition failures that abort the call);
  - the external quadrature engine (gsExprEvaluator + gsKnotVector +
    gsBSplineBasis, an excluded collaborator per the spec) is modelled as an
    abstract rule receiving the integrand and the knot-vector construction
    data (lower bound, upper bound, interior-knot count, end multiplicity;
    the end multiplicity equals the classical B-spline order, degree + 1);
  - math::cos / math::sin and Eigen's .normalized() are external numeric
    primitives, passed in as function parameters.
-/

/-- A dense matrix of rationals, mirroring gsMatrix: a number of rows, a
number of columns, and an entry function. -/
structure gsMatrix where
  rows : Nat
  cols : Nat
  entry : Nat → Nat → ℚ

/-- A function from a d-dimensional domain to a D-dimensional image,
mirroring the gsFunction interface (gsFunction.h): domain dimension, target
dimension, and pointwise evaluation (a point is a coordinate function, a
value is a component function). -/
structure gsFunction where
  domainDim : Nat
  targetDim : Nat
  eval : (Nat → ℚ) → Nat → ℚ

/-- Matrix-level evaluation of a gsFunction: by the documented gsFunction
contract, column j of the result is the value of the function at column j
of the input. -/
def gsFunction.eval_into (f : gsFunction) (u : gsMatrix) : gsMatrix :=
  ⟨f.targetDim, u.cols, fun i j => f.eval (fun r => u.entry r j) i⟩

/-- The Z-Extended Field Adapter gsIntegrantZ: wraps a field `fn`
(member `_fun`, cloned on construction) and a stored base point `surfPts`
(member `_surfPts`). -/
structure gsIntegrantZ where
  fn : gsFunction
  surfPts : gsMatrix

/-- gsIntegrantZ::domainDim(): always 1 (only the synthetic z coordinate
varies). -/
def gsIntegrantZ.domainDim (_g : gsIntegrantZ) : Nat := 1

/-- gsIntegrantZ::targetDim(): the wrapped field's target dimension. -/
def gsIntegrantZ.targetDim (g : gsIntegrantZ) : Nat := g.fn.targetDim

/-- The scratch matrix `tmp` built inside gsIntegrantZ::eval_into: the top
`surfPts.rows` rows replicate the stored base point across all columns, the
bottom row is the 1-row input `u` of z values. -/
def gsIntegrantZ.tmp (g : gsIntegrantZ) (u : gsMatrix) : gsMatrix :=
  ⟨g.surfPts.rows + 1, u.cols,
    fun r j => if r < g.surfPts.rows then g.surfPts.entry r 0 else u.entry 0 j⟩

/-- gsIntegrantZ::eval_into: after the three GISMO_ASSERT preconditions
(input has exactly 1 row; the wrapped field's domain dimension equals the
base point's row count plus 1; the base point has exactly 1 column), the
wrapped field is evaluated on the concatenated matrix `tmp`. -/
def gsIntegrantZ.eval_into (g : gsIntegrantZ) (u : gsMatrix) :
    Except String gsMatrix :=
  if u.rows = 1 then
    if g.fn.domainDim = g.surfPts.rows + 1 then
      if g.surfPts.cols = 1 then
        Except.ok (g.fn.eval_into (g.tmp u))
      else Except.error "Multiple parametric points given, accepts only 1"
    else Except.error "The domain dimensions do not match"
  else Except.error "The number of rows for the 1D coordinate is not 1"

/-- The external quadrature primitive (spec section 6:
QuadratureMesh.build + Integrator.integrate, an excluded collaborator).
Arguments: the scalar integrand, the lower and upper bound of the knot
vector, the interior-knot count and the end-knot multiplicity passed to the
gsKnotVector constructor (the end multiplicity equals the classical
B-spline order, i.e. degree + 1). -/
def QuadRule : Type := (ℚ → ℚ) → ℚ → ℚ → Nat → Nat → ℚ

/-- A 1-dimensional quadrature point, as handed to a field by the
expression evaluator: a 1-row matrix column holding the coordinate z. -/
def zPoint (z : ℚ) : Nat → ℚ := fun r => if r = 0 then z else 0

/-- The fixed-bound Thickness Integrator gsIntegrateZ: a wrapped field `fn`
(member `_fun`, cloned) and a fixed scalar thickness `t` (member `_t`). -/
structure gsIntegrateZ where
  fn : gsFunction
  t : ℚ

/-- gsIntegrateZ::domainDim(): 1. -/
def gsIntegrateZ.domainDim (_g : gsIntegrateZ) : Nat := 1

/-- gsIntegrateZ::targetDim(): the wrapped field's target dimension. -/
def gsIntegrateZ.targetDim (g : gsIntegrateZ) : Nat := g.fn.targetDim

/-- gsIntegrateZ::eval_into: the result is targetDim x u.cols; for every
component i and every column j the entry is the integral of component i of
the wrapped field over the knot vector KV(-t/2, t/2, 1, 2) (source: k = 1
interior knots, p = 1 so end multiplicity p+1 = 2). The input values of `u`
are never read; only the column count shapes the result. -/
def gsIntegrateZ.eval_into (Q : QuadRule) (g : gsIntegrateZ) (u : gsMatrix) :
    gsMatrix :=
  ⟨g.fn.targetDim, u.cols,
    fun i _j => Q (fun z => g.fn.eval (zPoint z) i) (-(g.t / 2)) (g.t / 2) 1 2⟩

/-- The variable-bound Thickness Integrator gsIntegrate: a wrapped field
`fn` (member `_fun`, cloned) and a thickness field `t` (member `_t`,
cloned). -/
structure gsIntegrate where
  fn : gsFunction
  t : gsFunction

/-- gsIntegrate::domainDim(): 2. -/
def gsIntegrate.domainDim (_g : gsIntegrate) : Nat := 2

/-- gsIntegrate::targetDim(): the wrapped field's target dimension. -/
def gsIntegrate.targetDim (g : gsIntegrate) : Nat := g.fn.targetDim

/-- Column j of a matrix, as its own 1-column matrix (u.col(j)). -/
def gsMatrix.col (u : gsMatrix) (j : Nat) : gsMatrix :=
  ⟨u.rows, 1, fun r _ => u.entry r j⟩

/-- The integrand used by gsIntegrate::eval_into for component i at query
column j: the value of the gsIntegrantZ adapter built over the wrapped
field with base point u.col(j), evaluated at the single quadrature
coordinate z (an aborted adapter evaluation yields no usable value,
modelled as 0; gsIntegrate.eval_into guards the abort condition up
front). -/
def gsIntegrate.integrant (g : gsIntegrate) (u : gsMatrix) (j i : Nat)
    (z : ℚ) : ℚ :=
  match gsIntegrantZ.eval_into ⟨g.fn, u.col j⟩ ⟨1, 1, fun _ _ => z⟩ with
  | Except.ok r => r.entry i 0
  | Except.error _ => 0

/-- gsIntegrate::eval_into: the thickness field is evaluated on all query
points (`thickMat`); for every component i and query column j, the local
half-thickness is thickMat(0,j)/2, a gsIntegrantZ adapter over the wrapped
field with base point u.col(j) is the integrand, and the integral is taken
over the freshly built knot vector KV(-tHalf, tHalf, 2, 2) (2 interior
knots, end multiplicity 2).  The gsIntegrantZ assertion
`fn.domainDim = u.rows + 1` (raised inside the quadrature loop in the
source) is the only failure mode and is checked here once. -/
def gsIntegrate.eval_into (Q : QuadRule) (g : gsIntegrate) (u : gsMatrix) :
    Except String gsMatrix :=
  if g.fn.domainDim = u.rows + 1 then
    Except.ok ⟨g.fn.targetDim, u.cols,
      fun i j =>
        Q (g.integrant u j i)
          (-((g.t.eval_into u).entry 0 j / 2)) ((g.t.eval_into u).entry 0 j / 2)
          2 2⟩
  else Except.error "The domain dimensions do not match"

/-- A 3x3 matrix of rationals with explicit entries, used for the local
frame F0, the elasticity tensor C, and the laminate matrices Dmat and Tmat
(the fixed-size gsMatrix 3,3 of the source). -/
structure Mat3 where
  m00 : ℚ
  m01 : ℚ
  m02 : ℚ
  m10 : ℚ
  m11 : ℚ
  m12 : ℚ
  m20 : ℚ
  m21 : ℚ
  m22 : ℚ
deriving DecidableEq

/-- The zero 3x3 matrix. -/
def Mat3.zero : Mat3 := ⟨0, 0, 0, 0, 0, 0, 0, 0, 0⟩

/-- The 3x3 identity matrix. -/
def Mat3.one : Mat3 := ⟨1, 0, 0, 0, 1, 0, 0, 0, 1⟩

/-- Entrywise sum of 3x3 matrices. -/
def Mat3.add (A B : Mat3) : Mat3 :=
  ⟨A.m00 + B.m00, A.m01 + B.m01, A.m02 + B.m02,
   A.m10 + B.m10, A.m11 + B.m11, A.m12 + B.m12,
   A.m20 + B.m20, A.m21 + B.m21, A.m22 + B.m22⟩

/-- Scalar multiple of a 3x3 matrix (C *= temp and Dmat * t in the
source). -/
def Mat3.smul (A : Mat3) (k : ℚ) : Mat3 :=
  ⟨k * A.m00, k * A.m01, k * A.m02,
   k * A.m10, k * A.m11, k * A.m12,
   k * A.m20, k * A.m21, k * A.m22⟩

/-- Transpose of a 3x3 matrix. -/
def Mat3.transpose (A : Mat3) : Mat3 :=
  ⟨A.m00, A.m10, A.m20, A.m01, A.m11, A.m21, A.m02, A.m12, A.m22⟩

/-- Product of 3x3 matrices. -/
def Mat3.mul (A B : Mat3) : Mat3 :=
  ⟨A.m00 * B.m00 + A.m01 * B.m10 + A.m02 * B.m20,
   A.m00 * B.m01 + A.m01 * B.m11 + A.m02 * B.m21,
   A.m00 * B.m02 + A.m01 * B.m12 + A.m02 * B.m22,
   A.m10 * B.m00 + A.m11 * B.m10 + A.m12 * B.m20,
   A.m10 * B.m01 + A.m11 * B.m11 + A.m12 * B.m21,
   A.m10 * B.m02 + A.m11 * B.m12 + A.m12 * B.m22,
   A.m20 * B.m00 + A.m21 * B.m10 + A.m22 * B.m20,
   A.m20 * B.m01 + A.m21 * B.m11 + A.m22 * B.m21,
   A.m20 * B.m02 + A.m21 * B.m12 + A.m22 * B.m22⟩

/-- Determinant of a 3x3 matrix. -/
def Mat3.det (A : Mat3) : ℚ :=
  A.m00 * (A.m11 * A.m22 - A.m12 * A.m21)
    - A.m01 * (A.m10 * A.m22 - A.m12 * A.m20)
    + A.m02 * (A.m10 * A.m21 - A.m11 * A.m20)

/-- Inverse of a 3x3 matrix by the cofactor formula (the exact-arithmetic
model of Eigen's fixed-size .inverse(); for a singular matrix the rational
convention 1/0 = 0 stands in for the unguarded non-finite values the
source would produce, a degeneracy the spec documents as unhandled). -/
def Mat3.inverse (A : Mat3) : Mat3 :=
  let d := A.det
  ⟨(A.m11 * A.m22 - A.m12 * A.m21) / d,
   -(A.m01 * A.m22 - A.m02 * A.m21) / d,
   (A.m01 * A.m12 - A.m02 * A.m11) / d,
   -(A.m10 * A.m22 - A.m12 * A.m20) / d,
   (A.m00 * A.m22 - A.m02 * A.m20) / d,
   -(A.m00 * A.m12 - A.m02 * A.m10) / d,
   (A.m10 * A.m21 - A.m11 * A.m20) / d,
   -(A.m00 * A.m21 - A.m01 * A.m20) / d,
   (A.m00 * A.m11 - A.m01 * A.m10) / d⟩

/-- Column-major flattening of a 3x3 matrix, matching Eigen's default
storage used by result.reshapeCol(i,3,3) and result.reshape(3,3): flat
index c*3+r holds entry (r,c). -/
def Mat3.colMajor (A : Mat3) (r : Nat) : ℚ :=
  if r = 0 then A.m00 else if r = 1 then A.m10 else if r = 2 then A.m20
  else if r = 3 then A.m01 else if r = 4 then A.m11 else if r = 5 then A.m21
  else if r = 6 then A.m02 else if r = 7 then A.m12
  else if r = 8 then A.m22 else 0

/-- The external geometry collaborator behind computeMap (NEED_VALUE,
NEED_JACOBIAN, NEED_NORMAL): at a 2D parametric point it provides the
mapped physical value (_tmp.values[0]), the 3x2 surface Jacobian
(_tmp.jacobian) and the surface normal (_tmp.normal, not yet
normalized). -/
structure GeometryMap where
  val : (Nat → ℚ) → Nat → ℚ
  jac : (Nat → ℚ) → Nat → Nat → ℚ
  normal : (Nat → ℚ) → Nat → ℚ

/-- u.topRows(2) on a single point: the first two coordinates survive, the
rest are absent (represented as 0). -/
def topRows2 (pt : Nat → ℚ) : Nat → ℚ := fun r => if r < 2 then pt r else 0

/-- The symmetric 3x3 elasticity tensor filled by gsMaterialMatrix from the
material constants E, nu and the contravariant metric F0 = F0inv *
F0invT (source lines: lambda, mu, C_constant and the six distinct C
entries; C(1,0)=C(0,1), C(2,0)=C(0,2), C(2,1)=C(1,2)). -/
def isotropicC (E nu : ℚ) (F0 : Mat3) : Mat3 :=
  let lambda := E * nu / ((1 + nu) * (1 - 2 * nu))
  let mu := E / (2 * (1 + nu))
  let Cc := 4 * lambda * mu / (lambda + 2 * mu)
  ⟨Cc * F0.m00 * F0.m00 + 2 * mu * (2 * F0.m00 * F0.m00),
   Cc * F0.m00 * F0.m11 + 2 * mu * (2 * F0.m01 * F0.m01),
   Cc * F0.m00 * F0.m01 + 2 * mu * (2 * F0.m00 * F0.m01),
   Cc * F0.m00 * F0.m11 + 2 * mu * (2 * F0.m01 * F0.m01),
   Cc * F0.m11 * F0.m11 + 2 * mu * (2 * F0.m11 * F0.m11),
   Cc * F0.m01 * F0.m11 + 2 * mu * (2 * F0.m01 * F0.m11),
   Cc * F0.m00 * F0.m01 + 2 * mu * (2 * F0.m00 * F0.m01),
   Cc * F0.m01 * F0.m11 + 2 * mu * (2 * F0.m01 * F0.m11),
   Cc * F0.m01 * F0.m01 + 2 * mu * (F0.m00 * F0.m11 + F0.m01 * F0.m01)⟩

/-- The Isotropic Material Matrix Evaluator gsMaterialMatrix: the geometry
(_mp, acting through computeMap), the Young's-modulus field
(_YoungsModulus) and the Poisson's-ratio field (_PoissonRatio). -/
structure gsMaterialMatrix where
  mp : GeometryMap
  YoungsModulus : gsFunction
  PoissonRatio : gsFunction

/-- gsMaterialMatrix::domainDim(): 3. -/
def gsMaterialMatrix.domainDim (_M : gsMaterialMatrix) : Nat := 3

/-- gsMaterialMatrix::targetDim(): 9. -/
def gsMaterialMatrix.targetDim (_M : gsMaterialMatrix) : Nat := 9

/-- The contravariant metric built per point by gsMaterialMatrix: assemble
F0 = [jacobian columns | normalized normal] at the in-plane parametric
point, invert it, and form F0 * F0^T.  `nrm` is the external normalization
primitive (Eigen's .normalized()). -/
def gsMaterialMatrix.frameF0 (nrm : (Nat → ℚ) → Nat → ℚ)
    (M : gsMaterialMatrix) (pt : Nat → ℚ) : Mat3 :=
  let xy := topRows2 pt
  let J := M.mp.jac xy
  let n := nrm (M.mp.normal xy)
  let A : Mat3 := ⟨J 0 0, J 0 1, n 0, J 1 0, J 1 1, n 1, J 2 0, J 2 1, n 2⟩
  let B := A.inverse
  B.mul B.transpose

/-- The body of the per-column loop of gsMaterialMatrix::eval_into at one
query point (x, y, z): E and nu are the field values at the geometry's
physical image _tmp.values[0] of (x, y) (the source evaluates the material
fields on computeMap's values, not on the parametric point); the tensor
isotropicC is scaled by the raw third coordinate z (temp = u(2,i); C *=
temp). -/
def gsMaterialMatrix.evalPoint (nrm : (Nat → ℚ) → Nat → ℚ)
    (M : gsMaterialMatrix) (pt : Nat → ℚ) : Mat3 :=
  let phys := M.mp.val (topRows2 pt)
  (isotropicC (M.YoungsModulus.eval phys 0) (M.PoissonRatio.eval phys 0)
      (M.frameF0 nrm pt)).smul (pt 2)

/-- gsMaterialMatrix::eval_into: a 9 x u.cols matrix; column j is the
column-major flattening (reshapeCol(j,3,3)) of the tensor at query column
j. -/
def gsMaterialMatrix.eval_into (nrm : (Nat → ℚ) → Nat → ℚ)
    (M : gsMaterialMatrix) (u : gsMatrix) : gsMatrix :=
  ⟨9, u.cols,
    fun r j => (M.evalPoint nrm (fun d => u.entry d j)).colMajor r⟩

/-- One ply of a laminate: orthotropic Young's moduli E1, E2, shear modulus
G12, Poisson ratios nu12, nu21, thickness t and fiber angle phi (the
quantities read from the five property vectors at index i). -/
structure Ply where
  E1 : ℚ
  E2 : ℚ
  G12 : ℚ
  nu12 : ℚ
  nu21 : ℚ
  t : ℚ
  phi : ℚ
deriving DecidableEq

/-- The local orthotropic stiffness matrix Dmat of one ply (source:
Dmat(0,0) = E1/(1-nu12*nu21), Dmat(1,1) = E2/(1-nu12*nu21), Dmat(2,2) =
G12, Dmat(0,1) = nu21*E1/(1-nu12*nu21), Dmat(1,0) = nu12*E2/(1-nu12*nu21),
the remaining entries zero). -/
def Dmat (p : Ply) : Mat3 :=
  ⟨p.E1 / (1 - p.nu12 * p.nu21), p.nu21 * p.E1 / (1 - p.nu12 * p.nu21), 0,
   p.nu12 * p.E2 / (1 - p.nu12 * p.nu21), p.E2 / (1 - p.nu12 * p.nu21), 0,
   0, 0, p.G12⟩

/-- The fiber-angle transformation matrix Tmat of one ply, built from
c = cos(phi) and s = sin(phi) (source sign pattern: the (0,2) and (2,1)
entries are sc resp. 2sc, the (1,2) entry is -sc, the (2,0) entry is -2sc,
the diagonal blocks are c^2 and s^2 and Tmat(2,2) = c^2 - s^2).  cosF and
sinF are the external math::cos and math::sin primitives. -/
def Tmat (cosF sinF : ℚ → ℚ) (p : Ply) : Mat3 :=
  let c := cosF p.phi
  let s := sinF p.phi
  ⟨c * c, s * s, s * c,
   s * s, c * c, -(s * c),
   -(2 * (s * c)), 2 * (s * c), c * c - s * s⟩

/-- The contribution of one ply to the membrane (A) laminate matrix:
Dmat rotated by Tmat (Dmat = Tmat^T * Dmat * Tmat) and weighted by the ply
thickness (result += Dmat * t). -/
def plyStep (cosF sinF : ℚ → ℚ) (p : Ply) : Mat3 :=
  (((Tmat cosF sinF p).transpose.mul (Dmat p)).mul (Tmat cosF sinF p)).smul p.t

/-- The per-ply loop of gsMaterialMatrixD::eval_into, with the running
accumulator (the result buffer) and the running thickness t_temp.  Each
iteration first checks the elastic-symmetry GISMO_ASSERT
nu21*E1 = nu12*E2 for its own ply: on failure the loop aborts, reported as
Sum.inr of the number of plies already processed together with the
accumulator contents at the abort; otherwise the ply's rotated weighted
stiffness is accumulated and t_temp grows by the ply thickness.  (The
distance-from-midplane z computed in the source is used by no retained
statement: the B and D terms are commented out.) -/
def laminateLoop (cosF sinF : ℚ → ℚ) :
    List Ply → Mat3 → ℚ → (Mat3 × ℚ) ⊕ (Nat × Mat3)
  | [], acc, ttemp => Sum.inl (acc, ttemp)
  | p :: rest, acc, ttemp =>
    if p.nu21 * p.E1 = p.nu12 * p.E2 then
      match laminateLoop cosF sinF rest (acc.add (plyStep cosF sinF p))
          (ttemp + p.t) with
      | Sum.inl r => Sum.inl r
      | Sum.inr (k, m) => Sum.inr (k + 1, m)
    else Sum.inr (0, acc)

/-- The Laminate Material Matrix Evaluator gsMaterialMatrixD: the five
per-ply property vectors. -/
structure gsMaterialMatrixD where
  YoungsModuli : List (ℚ × ℚ)
  ShearModuli : List ℚ
  PoissonRatios : List (ℚ × ℚ)
  thickness : List ℚ
  phi : List ℚ

/-- gsMaterialMatrixD::domainDim(): 2. -/
def gsMaterialMatrixD.domainDim (_g : gsMaterialMatrixD) : Nat := 2

/-- gsMaterialMatrixD::targetDim(): 9. -/
def gsMaterialMatrixD.targetDim (_g : gsMaterialMatrixD) : Nat := 9

/-- The ply sequence read by the loop: entry i of each of the five property
vectors (well defined once the length assertions have passed). -/
def gsMaterialMatrixD.plies (g : gsMaterialMatrixD) : List Ply :=
  (g.YoungsModuli.zip
      (g.ShearModuli.zip (g.PoissonRatios.zip (g.thickness.zip g.phi)))).map
    (fun x =>
      ⟨x.1.1, x.1.2, x.2.1, x.2.2.1.1, x.2.2.1.2, x.2.2.2.1, x.2.2.2.2⟩)

/-- The single 3x3 laminate tensor computed by gsMaterialMatrixD::eval_into:
the five length GISMO_ASSERTs in source order, then the ply loop over the
accumulator initialized to zero (the source resizes the result buffer to
9 x 1 and accumulates into its 3x3 reshape; the spec's "Initialize material
matrix and result" fixes the modelled initial contents to zero, which Eigen's
resize leaves unspecified), then the exact-equality GISMO_ASSERT
t_tot = t_temp comparing std::accumulate of the thickness vector with the
loop's running sum. -/
def gsMaterialMatrixD.laminateMatrix (cosF sinF : ℚ → ℚ)
    (g : gsMaterialMatrixD) : Except String Mat3 :=
  if g.YoungsModuli.length = g.PoissonRatios.length then
    if g.YoungsModuli.length = g.ShearModuli.length then
      if g.thickness.length = g.phi.length then
        if g.YoungsModuli.length = g.thickness.length then
          if g.YoungsModuli.length ≠ 0 then
            match laminateLoop cosF sinF g.plies Mat3.zero 0 with
            | Sum.inl (m, ttemp) =>
              if g.thickness.foldl (fun a b => a + b) 0 = ttemp then
                Except.ok m
              else Except.error "Total thickness after loop is wrong"
            | Sum.inr _ => Except.error "No symmetry in material properties"
          else Except.error "No laminates defined"
        else Except.error
          "Size of vectors of material and laminate properties is not equal"
      else Except.error "Size of vectors of thickness and angles is not equal"
    else Except.error
      "Size of vectors of Youngs Moduli and Shear Moduli is not equal"
  else Except.error
    "Size of vectors of Youngs Moduli and Poisson Ratios is not equal"

/-- gsMaterialMatrixD::eval_into: the single laminate tensor, flattened
column-major into a 9 x 1 result.  The final source statement
result.replicate(1, u.cols()) builds a replicated copy and discards it
(Eigen's replicate is const and returns an expression), so the stored
result keeps exactly one column whatever the number of query columns; the
input values of u are never read. -/
def gsMaterialMatrixD.eval_into (cosF sinF : ℚ → ℚ) (g : gsMaterialMatrixD)
    (_u : gsMatrix) : Except String gsMatrix :=
  match g.laminateMatrix cosF sinF with
  | Except.ok m => Except.ok ⟨9, 1, fun r _ => m.colMajor r⟩
  | Except.error e => Except.error e

/-- A variant of gsMaterialMatrix.evalPoint that follows the spec's words
for the claim under comparison: "Evaluate Young's modulus E and Poisson's
ratio nu at (x,y)", i.e. at the in-plane parametric point instead of the
geometry's physical image.  Clearly a spec-side definition, kept only to
be compared with the source-side evalPoint. -/
def gsMaterialMatrix.evalPointAtParam (nrm : (Nat → ℚ) → Nat → ℚ)
    (M : gsMaterialMatrix) (pt : Nat → ℚ) : Mat3 :=
  let xy := topRows2 pt
  (isotropicC (M.YoungsModulus.eval xy 0) (M.PoissonRatio.eval xy 0)
      (M.frameF0 nrm pt)).smul (pt 2)

/-- Modelled from the spec: a concrete stand-in for the external
Integrator.integrate primitive of the excluded quadrature subsystem, used
only to witness hypotheses about that primitive.  A one-point midpoint
rule: exact for all affine integrands, in particular for constants. -/
def midRule : QuadRule :=
  fun f lo hi _k _p => f ((lo + hi) / 2) * (hi - lo)

/-- Identity stand-in for Eigen's .normalized(): agrees with true
normalization on every vector that is already a unit vector (all the
concrete scenarios below feed it the unit normal e_z or nothing at
all). -/
def idNrm : (Nat → ℚ) → Nat → ℚ := fun v => v

/-- Polynomial stand-in for math::cos, agreeing with the cosine at the
angle 0 used by the concrete scenarios: cosW 0 = 1. -/
def cosW : ℚ → ℚ := fun x => 1 - x * x / 2

/-- Polynomial stand-in for math::sin, agreeing with the sine at the angle
0 used by the concrete scenarios: sinW 0 = 0. -/
def sinW : ℚ → ℚ := fun x => x

/-- A constant scalar field of domain dimension 3 (the gsFunctionExpr
instances E and nu of the example driver). -/
def constFun3 (a : ℚ) : gsFunction := ⟨3, 1, fun _ _ => a⟩

/-- The flat axis-aligned unit-square patch embedded in 3D: value
(x, y, 0), surface Jacobian with columns e_x and e_y (the 2x2 identity in
its top block), unit normal e_z. -/
def flatGeo : GeometryMap :=
  ⟨fun p r => if r < 2 then p r else 0,
   fun _ r c => if r = c then 1 else 0,
   fun _ r => if r = 2 then 1 else 0⟩

/-- The isotropic evaluator on the flat patch with uniform E = 1,
nu = 0 (the configuration of the example driver). -/
def mmFlat : gsMaterialMatrix := ⟨flatGeo, constFun3 1, constFun3 0⟩

/-- The isotropic evaluator on the flat patch with uniform E = 3,
nu = 1/4. -/
def mmFlatW : gsMaterialMatrix := ⟨flatGeo, constFun3 3, constFun3 (1/4)⟩

/-- The query point (0, 0, 1): in-plane origin, scale factor z = 1. -/
def ptz1 : Nat → ℚ := fun r => if r = 2 then 1 else 0

/-- A non-identity patch: value (2x, y, 0), surface Jacobian with columns
2e_x and e_y, unit normal e_z.  Its physical image differs from the
parametric point, separating the two candidate evaluation points for the
material fields. -/
def stretchGeo : GeometryMap :=
  ⟨fun p r => if r = 0 then 2 * p 0 else if r = 1 then p 1 else 0,
   fun _ r c => if r = 0 ∧ c = 0 then 2 else if r = 1 ∧ c = 1 then 1 else 0,
   fun _ r => if r = 2 then 1 else 0⟩

/-- A scalar field of domain dimension 3 reading its first coordinate
(a Young's modulus varying in space). -/
def coordFun0 : gsFunction := ⟨3, 1, fun p _ => p 0⟩

/-- Isotropic evaluator on the stretched patch with the coordinate-reading
Young's modulus and nu = 0. -/
def mmStretch : gsMaterialMatrix := ⟨stretchGeo, coordFun0, constFun3 0⟩

/-- Isotropic evaluator on the stretched patch with the constant Young's
modulus 2 (the value the coordinate-reading field takes at the physical
image of the query point below) and nu = 0. -/
def mmStretchConst : gsMaterialMatrix := ⟨stretchGeo, constFun3 2, constFun3 0⟩

/-- The query point (1, 0, 1) on the stretched patch: its physical image is
(2, 0, 0). -/
def ptStretch : Nat → ℚ := fun r => if r = 0 then 1 else if r = 2 then 1 else 0

/-- A concrete 2D-to-2D field for the adapter scenario: value
(x + y, x * y). -/
def fXY : gsFunction :=
  ⟨2, 2, fun p i => if i = 0 then p 0 + p 1 else if i = 1 then p 0 * p 1 else 0⟩

/-- A concrete adapter over fXY with stored base point (1/2) (a 1 x 1
matrix, so the wrapped domain dimension 2 equals 1 + 1). -/
def gIntW : gsIntegrantZ := ⟨fXY, ⟨1, 1, fun _ _ => 1/2⟩⟩

/-- A 1 x 2 input of z values (1/3 and 2). -/
def zInW : gsMatrix := ⟨1, 2, fun _ j => if j = 0 then 1/3 else 2⟩

/-- A concrete 3D-to-1D field for the variable-bound integrator scenario:
value x + y + z. -/
def fSum3 : gsFunction := ⟨3, 1, fun p _ => p 0 + p 1 + p 2⟩

/-- A thickness field of domain dimension 2: constant 4. -/
def thickFun4 : gsFunction := ⟨2, 1, fun _ _ => 4⟩

/-- A concrete variable-bound integrator over fSum3 with thickness field
thickFun4. -/
def gVarW : gsIntegrate := ⟨fSum3, thickFun4⟩

/-- A single 2D query point (1/2, 1/4) as a 2 x 1 matrix. -/
def uVarW : gsMatrix :=
  ⟨2, 1, fun r _ => if r = 0 then 1/2 else if r = 1 then 1/4 else 0⟩

/-- A constant 2-component field with value (5, 7) (any domain
dimension; the fixed-bound integrator never checks it). -/
def cField : gsFunction := ⟨1, 2, fun _ i => if i = 0 then 5 else 7⟩

/-- A concrete fixed-bound integrator over cField with thickness 3. -/
def gFixW : gsIntegrateZ := ⟨cField, 3⟩

/-- A 1 x 2 input matrix of z values (1/4, 3/4). -/
def uFixA : gsMatrix := ⟨1, 2, fun _ j => if j = 0 then 1/4 else 3/4⟩

/-- Another 1 x 2 input matrix with different values (9, -2). -/
def uFixB : gsMatrix := ⟨1, 2, fun _ j => if j = 0 then 9 else -2⟩

/-- A valid isotropic-like ply: E1 = E2 = 1, G12 = 1, nu12 = nu21 = 0,
thickness 1, angle 0.  Elastic symmetry holds (0 * 1 = 0 * 1) and its
accumulated contribution is nonzero. -/
def plyValidW : Ply := ⟨1, 1, 1, 0, 0, 1, 0⟩

/-- A symmetry-violating ply: nu21 * E1 = 1 while nu12 * E2 = 0. -/
def plyBadW : Ply := ⟨1, 1, 1, 0, 1, 1, 0⟩

/-- A laminate with the valid ply followed by the violating ply (the five
property vectors of gsMaterialMatrixD, all of length 2). -/
def gLamBad : gsMaterialMatrixD :=
  ⟨[(1, 1), (1, 1)], [1, 1], [(0, 0), (0, 1)], [1, 1], [0, 0]⟩

/-- A laminate with the single ply of the end-to-end spec scenario:
E1 = 300, E2 = 200, G12 = 100, nu12 = 3/10, nu21 = 1/5, thickness 1/10,
angle 0. -/
def gLamOne : gsMaterialMatrixD :=
  ⟨[(300, 200)], [100], [(3/10, 1/5)], [1/10], [0]⟩

/-- The ply of gLamOne as a record. -/
def plyOne : Ply := ⟨300, 200, 100, 3/10, 1/5, 1/10, 0⟩

/-- A 2 x 2 query matrix (two 2D points) for the laminate evaluator. -/
def uTwoPts : gsMatrix := ⟨2, 2, fun r j => (r : ℚ) + j⟩

/-- Multiplying by the 3x3 identity on the left is the identity. -/
theorem Mat3.one_mul (A : Mat3) : Mat3.one.mul A = A := by
  cases A
  simp [Mat3.mul, Mat3.one]

/-- Multiplying by the 3x3 identity on the right is the identity. -/
theorem Mat3.mul_one (A : Mat3) : A.mul Mat3.one = A := by
  cases A
  simp [Mat3.mul, Mat3.one]

/-- Adding to the zero 3x3 matrix is the identity. -/
theorem Mat3.zero_add (A : Mat3) : Mat3.zero.add A = A := by
  cases A
  simp [Mat3.add, Mat3.zero]

/-- The transpose of the 3x3 identity is itself. -/
theorem Mat3.transpose_one : Mat3.one.transpose = Mat3.one := rfl

/-- Scaling a 3x3 matrix by 1 is the identity. -/
theorem Mat3.smul_one (A : Mat3) : A.smul 1 = A := by
  cases A
  simp [Mat3.smul]

/-- Scaling a 3x3 matrix by 0 yields the zero matrix. -/
theorem Mat3.smul_zero (A : Mat3) : A.smul 0 = Mat3.zero := by
  cases A
  simp [Mat3.smul, Mat3.zero]

/-- C3: the Z-Extended Field Adapter satisfies its contract: under the
three asserted preconditions (1-row input, wrapped domain dimension equal
to base-point rows + 1, single-column base point) evaluation succeeds, the
result has one column per input z value, and column j is the underlying
field evaluated at the stored base point extended by the j-th z value;
the adapter reports domainDim 1 and the underlying target dimension. -/
theorem gsIntegrantZ_eval_extends (g : gsIntegrantZ) (u : gsMatrix)
    (h1 : u.rows = 1) (h2 : g.fn.domainDim = g.surfPts.rows + 1)
    (h3 : g.surfPts.cols = 1) :
    (∃ R, g.eval_into u = Except.ok R ∧ R.rows = g.fn.targetDim ∧
      R.cols = u.cols ∧
      ∀ i j, R.entry i j = g.fn.eval
        (fun r => if r < g.surfPts.rows then g.surfPts.entry r 0
                  else u.entry 0 j) i) ∧
    g.domainDim = 1 ∧ g.targetDim = g.fn.targetDim := by
  refine ⟨⟨g.fn.eval_into (g.tmp u), ?_, rfl, rfl, fun i j => rfl⟩, rfl, rfl⟩
  simp [gsIntegrantZ.eval_into, h1, h2, h3]

/-- Witness for gsIntegrantZ_eval_extends: the concrete adapter gIntW over
the 2D field fXY with base point (1/2) and the 1 x 2 input zInW satisfy
the preconditions and the contract. -/
theorem gsIntegrantZ_eval_extends_witness :
    (zInW.rows = 1 ∧ gIntW.fn.domainDim = gIntW.surfPts.rows + 1 ∧
      gIntW.surfPts.cols = 1) ∧
    ((∃ R, gIntW.eval_into zInW = Except.ok R ∧ R.rows = gIntW.fn.targetDim ∧
      R.cols = zInW.cols ∧
      ∀ i j, R.entry i j = gIntW.fn.eval
        (fun r => if r < gIntW.surfPts.rows then gIntW.surfPts.entry r 0
                  else zInW.entry 0 j) i) ∧
    gIntW.domainDim = 1 ∧ gIntW.targetDim = gIntW.fn.targetDim) :=
  ⟨⟨rfl, rfl, rfl⟩, gsIntegrantZ_eval_extends gIntW zInW rfl rfl rfl⟩

/-- C10: the fixed-bound integrator ignores the values of its input: on
two inputs with the same number of columns the entire results are equal,
and within one result every two columns are identical. -/
theorem gsIntegrateZ_input_independent (Q : QuadRule) (g : gsIntegrateZ)
    (u v : gsMatrix) (h : u.cols = v.cols) :
    gsIntegrateZ.eval_into Q g u = gsIntegrateZ.eval_into Q g v ∧
    ∀ i j k, (gsIntegrateZ.eval_into Q g u).entry i j =
      (gsIntegrateZ.eval_into Q g u).entry i k := by
  constructor
  · unfold gsIntegrateZ.eval_into
    rw [h]
  · intro i j k
    rfl

/-- Witness for gsIntegrateZ_input_independent: two different concrete
1 x 2 inputs give the same result under the midpoint stand-in rule. -/
theorem gsIntegrateZ_input_independent_witness :
    uFixA.cols = uFixB.cols ∧
    (gsIntegrateZ.eval_into midRule gFixW uFixA =
      gsIntegrateZ.eval_into midRule gFixW uFixB ∧
    ∀ i j k, (gsIntegrateZ.eval_into midRule gFixW uFixA).entry i j =
      (gsIntegrateZ.eval_into midRule gFixW uFixA).entry i k) :=
  ⟨rfl, gsIntegrateZ_input_independent midRule gFixW uFixA uFixB rfl⟩

/-- C7: for a constant wrapped field f = c and any quadrature primitive
that is exact on constants over its knot interval, every entry of the
fixed-bound integrator's result in column j, component i, equals
c i * thickness. -/
theorem gsIntegrateZ_const_field (Q : QuadRule) (g : gsIntegrateZ)
    (c : Nat → ℚ) (u : gsMatrix)
    (hf : ∀ p i, g.fn.eval p i = c i)
    (hQ : ∀ a lo hi : ℚ, Q (fun _ => a) lo hi 1 2 = a * (hi - lo)) :
    ∀ i j, i < g.targetDim → j < u.cols →
      (gsIntegrateZ.eval_into Q g u).entry i j = c i * g.t := by
  intro i j _ _
  show Q (fun z => g.fn.eval (zPoint z) i) (-(g.t / 2)) (g.t / 2) 1 2 =
    c i * g.t
  have he : (fun z => g.fn.eval (zPoint z) i) = fun _ => c i := by
    funext z
    exact hf (zPoint z) i
  rw [he, hQ]
  ring

/-- Witness for gsIntegrateZ_const_field: the constant field (5, 7) with
thickness 3 under the midpoint stand-in rule integrates to 5 * 3 in
component 0. -/
theorem gsIntegrateZ_const_field_witness :
    (∀ p i, gFixW.fn.eval p i = (if i = 0 then (5:ℚ) else 7)) ∧
    (∀ a lo hi : ℚ, midRule (fun _ => a) lo hi 1 2 = a * (hi - lo)) ∧
    (gsIntegrateZ.eval_into midRule gFixW uFixA).entry 0 0 =
      (if (0:Nat) = 0 then (5:ℚ) else 7) * gFixW.t :=
  ⟨fun _ _ => rfl, fun _ _ _ => rfl,
    gsIntegrateZ_const_field midRule gFixW (fun i => if i = 0 then 5 else 7)
      uFixA (fun _ _ => rfl) (fun _ _ _ => rfl) 0 0 (by decide) (by decide)⟩

/-- C4: the variable-bound integrator, under the adapter's dimension
precondition, succeeds and produces a targetDim x u.cols result whose
(i, j) entry is the quadrature of the Z-adapter integrand over the fresh
knot vector from -tHalf to +tHalf with 2 interior knots and end
multiplicity 2 (classical spline order 2), where tHalf is half the
thickness field's value at query column j; and the integrand is exactly
the wrapped field at the base point u.col(j) extended by the quadrature
coordinate z. -/
theorem gsIntegrate_eval_spec (Q : QuadRule) (g : gsIntegrate)
    (u : gsMatrix) (h : g.fn.domainDim = u.rows + 1) :
    ∃ R, gsIntegrate.eval_into Q g u = Except.ok R ∧
      R.rows = g.fn.targetDim ∧ R.cols = u.cols ∧
      (∀ i j, R.entry i j =
        Q (g.integrant u j i)
          (-(g.t.eval (fun r => u.entry r j) 0 / 2))
          (g.t.eval (fun r => u.entry r j) 0 / 2) 2 2) ∧
      (∀ j i z, g.integrant u j i z =
        g.fn.eval (fun r => if r < u.rows then u.entry r j else z) i) := by
  refine ⟨⟨g.fn.targetDim, u.cols,
      fun i j =>
        Q (g.integrant u j i)
          (-((g.t.eval_into u).entry 0 j / 2))
          ((g.t.eval_into u).entry 0 j / 2) 2 2⟩,
    ?_, rfl, rfl, fun i j => rfl, fun j i z => ?_⟩
  · unfold gsIntegrate.eval_into
    rw [if_pos h]
  · unfold gsIntegrate.integrant
    have hc : gsIntegrantZ.eval_into ⟨g.fn, u.col j⟩ ⟨1, 1, fun _ _ => z⟩ =
        Except.ok (g.fn.eval_into
          (gsIntegrantZ.tmp ⟨g.fn, u.col j⟩ ⟨1, 1, fun _ _ => z⟩)) := by
      simp [gsIntegrantZ.eval_into, gsMatrix.col, h]
    rw [hc]
    rfl

/-- Witness for gsIntegrate_eval_spec: the concrete 3D field fSum3 with the
constant thickness field 4 on a single 2D query point satisfies the
precondition and the stated evaluation structure. -/
theorem gsIntegrate_eval_spec_witness :
    gVarW.fn.domainDim = uVarW.rows + 1 ∧
    (∃ R, gsIntegrate.eval_into midRule gVarW uVarW = Except.ok R ∧
      R.rows = gVarW.fn.targetDim ∧ R.cols = uVarW.cols ∧
      (∀ i j, R.entry i j =
        midRule (gVarW.integrant uVarW j i)
          (-(gVarW.t.eval (fun r => uVarW.entry r j) 0 / 2))
          (gVarW.t.eval (fun r => uVarW.entry r j) 0 / 2) 2 2) ∧
      (∀ j i z, gVarW.integrant uVarW j i z =
        gVarW.fn.eval (fun r => if r < uVarW.rows then uVarW.entry r j else z)
          i)) :=
  ⟨rfl, gsIntegrate_eval_spec midRule gVarW uVarW rfl⟩

/-- C6: the isotropic tensor is homogeneous of degree 1 in the third input
coordinate: the tensor at (x, y, z) is z times the tensor at (x, y, 1),
and at z = 0 it is the zero tensor. -/
theorem gsMaterialMatrix_z_homogeneous (nrm : (Nat → ℚ) → Nat → ℚ)
    (M : gsMaterialMatrix) (pt : Nat → ℚ) :
    M.evalPoint nrm pt =
      (M.evalPoint nrm (fun r => if r = 2 then 1 else pt r)).smul (pt 2) ∧
    M.evalPoint nrm (fun r => if r = 2 then 0 else pt r) = Mat3.zero := by
  have hxy : ∀ a : ℚ,
      topRows2 (fun r => if r = 2 then a else pt r) = topRows2 pt := by
    intro a
    funext r
    by_cases hr : r < 2
    · have h2 : r ≠ 2 := by omega
      simp [topRows2, hr, h2]
    · simp [topRows2, hr]
  have hF : ∀ a : ℚ,
      M.frameF0 nrm (fun r => if r = 2 then a else pt r) =
        M.frameF0 nrm pt := by
    intro a
    unfold gsMaterialMatrix.frameF0
    rw [hxy]
  constructor
  · simp only [gsMaterialMatrix.evalPoint, hxy, hF]
    norm_num [Mat3.smul_one]
  · simp only [gsMaterialMatrix.evalPoint, hxy, hF]
    norm_num [Mat3.smul_zero]

/-- C5 counterexample: on the stretched patch (physical image (2x, y, 0))
with the coordinate-reading Young's modulus, the tensor at the parametric
point (1, 0) with z = 1 differs from the tensor obtained by following the
claim's words (material fields evaluated at the parametric point): the
source evaluates them at the geometry's physical image (2, 0, 0). -/
theorem gsMaterialMatrix_param_eval_cex :
    gsMaterialMatrix.evalPoint idNrm mmStretch ptStretch ≠
      gsMaterialMatrix.evalPointAtParam idNrm mmStretch ptStretch := by
  norm_num [gsMaterialMatrix.evalPoint, gsMaterialMatrix.evalPointAtParam,
    gsMaterialMatrix.frameF0, isotropicC, Mat3.inverse, Mat3.det, Mat3.mul,
    Mat3.transpose, Mat3.smul, mmStretch, stretchGeo, coordFun0, constFun3,
    ptStretch, topRows2, idNrm, Mat3.mk.injEq]

/-- C5 (amended): the material constants entering the tensor formulas are
the values of the Young's-modulus and Poisson's-ratio fields at the
geometry's physical image of the in-plane parametric point: two evaluators
with the same geometry whose material fields agree at that image produce
identical tensors, whatever their values elsewhere. -/
theorem gsMaterialMatrix_material_at_physical (nrm : (Nat → ℚ) → Nat → ℚ)
    (M1 M2 : gsMaterialMatrix) (pt : Nat → ℚ)
    (hmp : M1.mp = M2.mp)
    (hE : M1.YoungsModulus.eval (M1.mp.val (topRows2 pt)) 0 =
          M2.YoungsModulus.eval (M2.mp.val (topRows2 pt)) 0)
    (hnu : M1.PoissonRatio.eval (M1.mp.val (topRows2 pt)) 0 =
           M2.PoissonRatio.eval (M2.mp.val (topRows2 pt)) 0) :
    M1.evalPoint nrm pt = M2.evalPoint nrm pt := by
  obtain ⟨mp1, Y1, N1⟩ := M1
  obtain ⟨mp2, Y2, N2⟩ := M2
  cases hmp
  simp only [gsMaterialMatrix.evalPoint, gsMaterialMatrix.frameF0] at hE hnu ⊢
  rw [hE, hnu]

/-- Witness for gsMaterialMatrix_material_at_physical: the
coordinate-reading Young's modulus and the constant 2 agree at the
physical image (2, 0, 0) of the query point (1, 0), and the two
evaluators coincide there. -/
theorem gsMaterialMatrix_material_at_physical_witness :
    (mmStretch.mp = mmStretchConst.mp ∧
      mmStretch.YoungsModulus.eval (mmStretch.mp.val (topRows2 ptStretch)) 0 =
        mmStretchConst.YoungsModulus.eval
          (mmStretchConst.mp.val (topRows2 ptStretch)) 0 ∧
      mmStretch.PoissonRatio.eval (mmStretch.mp.val (topRows2 ptStretch)) 0 =
        mmStretchConst.PoissonRatio.eval
          (mmStretchConst.mp.val (topRows2 ptStretch)) 0) ∧
    gsMaterialMatrix.evalPoint idNrm mmStretch ptStretch =
      gsMaterialMatrix.evalPoint idNrm mmStretchConst ptStretch :=
  ⟨⟨rfl,
      by norm_num [mmStretch, mmStretchConst, stretchGeo, coordFun0, constFun3,
        ptStretch, topRows2],
      by norm_num [mmStretch, mmStretchConst, constFun3]⟩,
    gsMaterialMatrix_material_at_physical idNrm mmStretch mmStretchConst
      ptStretch rfl
      (by norm_num [mmStretch, mmStretchConst, stretchGeo, coordFun0, constFun3,
        ptStretch, topRows2])
      (by norm_num [mmStretch, mmStretchConst, constFun3])⟩

/-- C1 counterexample: the flat unit patch with uniform E = 1, nu = 0 and
query point (0, 0, 1) meets every scenario condition of the claim, yet the
code's tensor entry C11 is 2, not the claimed analytic plane-stress value
E/(1-nu^2) = 1. -/
theorem gsMaterialMatrix_flat_claim_cex :
    (gsMaterialMatrix.evalPoint idNrm mmFlat ptz1).m00 = 2 ∧
    (2 : ℚ) ≠ 1 / (1 - 0 * 0) := by
  constructor
  · norm_num [gsMaterialMatrix.evalPoint, gsMaterialMatrix.frameF0, isotropicC,
      Mat3.inverse, Mat3.det, Mat3.mul, Mat3.transpose, Mat3.smul, mmFlat,
      flatGeo, constFun3, ptz1, topRows2, idNrm]
  · norm_num

/-- C1 (amended): at a query point whose geometry has the 2x2 identity
Jacobian (embedded with zero third row) and unit normal e_z, with field
values E and nu at the physical image (0 <= nu < 1/2) and third coordinate
z = 1, the tensor is exactly twice the analytic plane-stress isotropic
stiffness tensor: C11 = C22 = 2E/(1-nu^2), C12 = 2*nu*E/(1-nu^2),
C33 = E/(1+nu) (twice E/(2(1+nu))), all remaining off-diagonal entries
zero. -/
theorem gsMaterialMatrix_flat_tensor (nrm : (Nat → ℚ) → Nat → ℚ)
    (M : gsMaterialMatrix) (pt : Nat → ℚ) (E nu : ℚ)
    (hJ00 : M.mp.jac (topRows2 pt) 0 0 = 1)
    (hJ01 : M.mp.jac (topRows2 pt) 0 1 = 0)
    (hJ10 : M.mp.jac (topRows2 pt) 1 0 = 0)
    (hJ11 : M.mp.jac (topRows2 pt) 1 1 = 1)
    (hJ20 : M.mp.jac (topRows2 pt) 2 0 = 0)
    (hJ21 : M.mp.jac (topRows2 pt) 2 1 = 0)
    (hN0 : nrm (M.mp.normal (topRows2 pt)) 0 = 0)
    (hN1 : nrm (M.mp.normal (topRows2 pt)) 1 = 0)
    (hN2 : nrm (M.mp.normal (topRows2 pt)) 2 = 1)
    (hE : M.YoungsModulus.eval (M.mp.val (topRows2 pt)) 0 = E)
    (hnu : M.PoissonRatio.eval (M.mp.val (topRows2 pt)) 0 = nu)
    (hnu0 : 0 ≤ nu) (hnu2 : nu < 1/2) (hz : pt 2 = 1) :
    M.evalPoint nrm pt =
      ⟨2 * E / (1 - nu^2), 2 * nu * E / (1 - nu^2), 0,
       2 * nu * E / (1 - nu^2), 2 * E / (1 - nu^2), 0,
       0, 0, E / (1 + nu)⟩ := by
  have hF : M.frameF0 nrm pt = Mat3.one := by
    simp only [gsMaterialMatrix.frameF0]
    rw [hJ00, hJ01, hJ10, hJ11, hJ20, hJ21, hN0, hN1, hN2]
    norm_num [Mat3.inverse, Mat3.det, Mat3.mul, Mat3.transpose, Mat3.one]
  simp only [gsMaterialMatrix.evalPoint, hF, hE, hnu, hz, Mat3.smul_one]
  have h1 : (0:ℚ) < 1 + nu := by linarith
  have h2 : (0:ℚ) < 1 - 2 * nu := by linarith
  have h3 : (0:ℚ) < 1 - nu := by linarith
  have h1n : (1:ℚ) + nu ≠ 0 := ne_of_gt h1
  have h2n : (1:ℚ) - 2 * nu ≠ 0 := ne_of_gt h2
  have h3n : (1:ℚ) - nu ≠ 0 := ne_of_gt h3
  have h4n : (1:ℚ) - nu^2 ≠ 0 := by
    have hfac : (1:ℚ) - nu^2 = (1 - nu) * (1 + nu) := by ring
    rw [hfac]
    exact mul_ne_zero h3n h1n
  by_cases hE0 : E = 0
  · subst hE0
    simp [isotropicC, Mat3.one, Mat3.mk.injEq]
  · have hsum : E * nu / ((1 + nu) * (1 - 2 * nu)) + 2 * (E / (2 * (1 + nu))) =
        E * (1 - nu) / ((1 + nu) * (1 - 2 * nu)) := by
      field_simp
      ring
    have hCc : 4 * (E * nu / ((1 + nu) * (1 - 2 * nu))) * (E / (2 * (1 + nu))) /
        (E * nu / ((1 + nu) * (1 - 2 * nu)) + 2 * (E / (2 * (1 + nu)))) =
        2 * E * nu / (1 - nu^2) := by
      rw [hsum]
      rw [div_eq_div_iff (div_ne_zero (mul_ne_zero hE0 h3n)
        (mul_ne_zero h1n h2n)) h4n]
      field_simp
      ring
  -- hCc needs an equation form usable by rw once the lets are expanded
    simp only [isotropicC, Mat3.one]
    rw [hCc, Mat3.mk.injEq]
    refine ⟨?_, ?_, ?_, ?_, ?_, ?_, ?_, ?_, ?_⟩
    all_goals field_simp
    all_goals ring

/-- Witness for gsMaterialMatrix_flat_tensor: the flat patch with uniform
E = 3, nu = 1/4 at the query point (0, 0, 1). -/
theorem gsMaterialMatrix_flat_tensor_witness :
    ((0:ℚ) ≤ 1/4 ∧ (1/4:ℚ) < 1/2 ∧ ptz1 2 = 1) ∧
    gsMaterialMatrix.evalPoint idNrm mmFlatW ptz1 =
      ⟨2 * 3 / (1 - (1/4:ℚ)^2), 2 * (1/4) * 3 / (1 - (1/4:ℚ)^2), 0,
       2 * (1/4) * 3 / (1 - (1/4:ℚ)^2), 2 * 3 / (1 - (1/4:ℚ)^2), 0,
       0, 0, 3 / (1 + (1/4:ℚ))⟩ :=
  ⟨⟨by norm_num, by norm_num, rfl⟩,
    gsMaterialMatrix_flat_tensor idNrm mmFlatW ptz1 3 (1/4)
      rfl rfl rfl rfl rfl rfl rfl rfl rfl rfl rfl
      (by norm_num) (by norm_num) rfl⟩

/-- Helper for the laminate loop: when some ply in the list violates
elastic symmetry, the loop aborts at the first violating ply, having
processed and accumulated exactly the plies before it. -/
theorem laminateLoop_abort (cosF sinF : ℚ → ℚ) (l : List Ply) (acc : Mat3)
    (ttemp : ℚ) (h : ∃ p ∈ l, p.nu21 * p.E1 ≠ p.nu12 * p.E2) :
    laminateLoop cosF sinF l acc ttemp =
      Sum.inr
        ((l.takeWhile fun p => decide (p.nu21 * p.E1 = p.nu12 * p.E2)).length,
         (l.takeWhile fun p => decide (p.nu21 * p.E1 = p.nu12 * p.E2)).foldl
           (fun a p => a.add (plyStep cosF sinF p)) acc) := by
  induction l generalizing acc ttemp with
  | nil =>
    obtain ⟨p, hp, _⟩ := h
    cases hp
  | cons p rest ih =>
    by_cases hv : p.nu21 * p.E1 = p.nu12 * p.E2
    · have hrest : ∃ q ∈ rest, q.nu21 * q.E1 ≠ q.nu12 * q.E2 := by
        obtain ⟨q, hq, hqv⟩ := h
        rcases List.mem_cons.mp hq with hq1 | hq2
        · subst hq1
          exact absurd hv hqv
        · exact ⟨q, hq2, hqv⟩
      simp only [laminateLoop, if_pos hv, ih _ _ hrest]
      simp [List.takeWhile_cons, hv]
    · simp only [laminateLoop, if_neg hv]
      simp [List.takeWhile_cons, hv]

/-- C8 counterexample: on the two-ply laminate whose second ply violates
elastic symmetry, the loop aborts only after one full ply has been
processed: it reports 1 processed ply and a nonzero accumulated matrix, so
a Dmat/Tmat/accumulation step does occur before the fatal failure. -/
theorem gsMaterialMatrixD_abort_after_work :
    laminateLoop cosW sinW gLamBad.plies Mat3.zero 0 =
      Sum.inr (1, Mat3.zero.add (plyStep cosW sinW plyValidW)) ∧
    Mat3.zero.add (plyStep cosW sinW plyValidW) ≠ Mat3.zero := by
  constructor
  · norm_num [gLamBad, gsMaterialMatrixD.plies, laminateLoop, plyValidW,
      plyBadW]
  · norm_num [Mat3.add, Mat3.zero, plyStep, plyValidW, Tmat, Dmat, cosW, sinW,
      Mat3.mul, Mat3.transpose, Mat3.smul, Mat3.mk.injEq]

/-- C8 (amended): if any ply violates elastic symmetry, evaluation aborts
deterministically with the symmetry precondition failure, and the abort
happens before the violating ply's stiffness computation: the loop stops at
the first violating ply with exactly the preceding (valid) plies processed
and accumulated. -/
theorem gsMaterialMatrixD_symmetry_abort (cosF sinF : ℚ → ℚ)
    (g : gsMaterialMatrixD)
    (hlen1 : g.YoungsModuli.length = g.PoissonRatios.length)
    (hlen2 : g.YoungsModuli.length = g.ShearModuli.length)
    (hlen3 : g.thickness.length = g.phi.length)
    (hlen4 : g.YoungsModuli.length = g.thickness.length)
    (hne : g.YoungsModuli.length ≠ 0)
    (hbad : ∃ p ∈ g.plies, p.nu21 * p.E1 ≠ p.nu12 * p.E2) :
    g.laminateMatrix cosF sinF =
      Except.error "No symmetry in material properties" ∧
    laminateLoop cosF sinF g.plies Mat3.zero 0 =
      Sum.inr
        ((g.plies.takeWhile
            fun p => decide (p.nu21 * p.E1 = p.nu12 * p.E2)).length,
         (g.plies.takeWhile
            fun p => decide (p.nu21 * p.E1 = p.nu12 * p.E2)).foldl
           (fun a p => a.add (plyStep cosF sinF p)) Mat3.zero) := by
  have hl := laminateLoop_abort cosF sinF g.plies Mat3.zero 0 hbad
  refine ⟨?_, hl⟩
  unfold gsMaterialMatrixD.laminateMatrix
  rw [if_pos hlen1, if_pos hlen2, if_pos hlen3, if_pos hlen4, if_pos hne, hl]

/-- Witness for gsMaterialMatrixD_symmetry_abort: the concrete two-ply
laminate gLamBad satisfies the length preconditions and contains a
violating ply, and the evaluation aborts with the symmetry failure. -/
theorem gsMaterialMatrixD_symmetry_abort_witness :
    (gLamBad.YoungsModuli.length = gLamBad.PoissonRatios.length ∧
      gLamBad.YoungsModuli.length = gLamBad.ShearModuli.length ∧
      gLamBad.thickness.length = gLamBad.phi.length ∧
      gLamBad.YoungsModuli.length = gLamBad.thickness.length ∧
      gLamBad.YoungsModuli.length ≠ 0 ∧
      (∃ p ∈ gLamBad.plies, p.nu21 * p.E1 ≠ p.nu12 * p.E2)) ∧
    gLamBad.laminateMatrix cosW sinW =
      Except.error "No symmetry in material properties" :=
  ⟨⟨rfl, rfl, rfl, rfl, by decide,
      ⟨plyBadW, by norm_num [gLamBad, gsMaterialMatrixD.plies, plyBadW],
        by norm_num [plyBadW]⟩⟩,
    (gsMaterialMatrixD_symmetry_abort cosW sinW gLamBad rfl rfl rfl rfl
      (by decide)
      ⟨plyBadW, by norm_num [gLamBad, gsMaterialMatrixD.plies, plyBadW],
        by norm_num [plyBadW]⟩).1⟩

/-- C9: a single-ply laminate with fiber angle 0 (under trigonometric
primitives with cos 0 = 1 and sin 0 = 0, and symmetric ply data) has
identity transformation matrix Tmat, and its laminate tensor is exactly
the ply's local orthotropic stiffness matrix Dmat times the ply
thickness. -/
theorem gsMaterialMatrixD_single_ply (cosF sinF : ℚ → ℚ)
    (E1 E2 G12 nu12 nu21 t : ℚ)
    (hc : cosF 0 = 1) (hs : sinF 0 = 0)
    (hsym : nu21 * E1 = nu12 * E2) :
    Tmat cosF sinF ⟨E1, E2, G12, nu12, nu21, t, 0⟩ = Mat3.one ∧
    gsMaterialMatrixD.laminateMatrix cosF sinF
        ⟨[(E1, E2)], [G12], [(nu12, nu21)], [t], [0]⟩ =
      Except.ok ((Dmat ⟨E1, E2, G12, nu12, nu21, t, 0⟩).smul t) := by
  have hT : Tmat cosF sinF ⟨E1, E2, G12, nu12, nu21, t, 0⟩ = Mat3.one := by
    simp [Tmat, hc, hs, Mat3.one]
  refine ⟨hT, ?_⟩
  unfold gsMaterialMatrixD.laminateMatrix
  simp only [gsMaterialMatrixD.plies, List.zip_cons_cons, List.zip_nil_right,
    List.map_cons, List.map_nil, List.length_cons, List.length_nil,
    List.foldl_cons, List.foldl_nil]
  norm_num [laminateLoop, if_pos hsym, plyStep, hT, Mat3.transpose_one,
    Mat3.one_mul, Mat3.mul_one, Mat3.zero_add]

/-- Witness for gsMaterialMatrixD_single_ply: the end-to-end ply
(E1 = 300, E2 = 200, G12 = 100, nu12 = 3/10, nu21 = 1/5, t = 1/10) at
angle 0, under the polynomial trigonometric stand-ins. -/
theorem gsMaterialMatrixD_single_ply_witness :
    (cosW 0 = 1 ∧ sinW 0 = 0 ∧ (1/5 : ℚ) * 300 = (3/10 : ℚ) * 200) ∧
    gsMaterialMatrixD.laminateMatrix cosW sinW
        ⟨[(300, 200)], [100], [(3/10, 1/5)], [1/10], [0]⟩ =
      Except.ok ((Dmat ⟨300, 200, 100, 3/10, 1/5, 1/10, 0⟩).smul (1/10)) :=
  ⟨⟨by norm_num [cosW], rfl, by norm_num⟩,
    (gsMaterialMatrixD_single_ply cosW sinW 300 200 100 (3/10) (1/5) (1/10)
      (by norm_num [cosW]) rfl (by norm_num)).2⟩

/-- C2 (code bug): the laminate evaluator on a 2-column query input still
returns a single-column result: the final result.replicate(1, u.cols())
discards its value (Eigen's replicate is const), contradicting both the
spec and the source's own comment "Replicate for all points". -/
theorem gsMaterialMatrixD_replicate_noop :
    ∃ R, gsMaterialMatrixD.eval_into cosW sinW gLamOne uTwoPts =
        Except.ok R ∧ R.rows = 9 ∧ R.cols = 1 ∧ uTwoPts.cols = 2 := by
  have hm : gLamOne.laminateMatrix cosW sinW =
      Except.ok (Mat3.zero.add (plyStep cosW sinW plyOne)) := by
    unfold gsMaterialMatrixD.laminateMatrix
    norm_num [gsMaterialMatrixD.plies, gLamOne, laminateLoop, plyOne, plyStep,
      Tmat, Dmat, cosW, sinW, Mat3.mul, Mat3.transpose, Mat3.smul, Mat3.add,
      Mat3.zero, Mat3.mk.injEq]
  refine ⟨⟨9, 1,
      fun r _ => (Mat3.zero.add (plyStep cosW sinW plyOne)).colMajor r⟩,
    ?_, rfl, rfl, rfl⟩
  unfold gsMaterialMatrixD.eval_into
  rw [hm]
